import Mathlib

/-!
Shallow embedding of the session-management subsystem of pty-mcp-server
(package `pty_mcp_server`): the channel/session classes
(`core/sessions/pty.py`, `process.py`, `socket.py`, `serial.py`, `tmux.py`),
the `SessionManager` (`core/manager.py`), the `BaseTool` contract and
`ToolRegistry` (`lib/base.py`, `lib/registry.py`), and the close-path tool
plugins (`plugins/terminal/disconnect.py`, `plugins/process/kill_proc.py`,
`plugins/serial/serial_close.py`, `plugins/serial/serial_message.py`).

Modelling conventions:
- Python object attributes become structure fields; `None` becomes `none`.
- OS effects (openpty, subprocess spawn, socket connect, os.close, the
  tmux daemon) are inputs to the embedded functions: the embedding takes
  the outcome the OS would produce and computes the resulting object state
  and return value / raised exception, mirroring the source control flow.
- A Python method that can raise is embedded as returning
  `State × Except String α`: `.error e` is a raised exception with message
  `e`, and the returned state is the object state at the moment of the
  raise (attribute mutations made before the raise are kept).
- Python truthiness is modelled where the source branches on it
  (`if self.master_fd:` is false for `None` and for fd `0`;
  `if self.process:` is false only for `None` since objects are truthy).
-/

namespace PtyMcp

/-- A Python runtime value, as far as `BaseTool.validate_arguments` and the
tool argument dictionaries inspect one. `vBool` is kept separate from
`vInt` but counts as an `int` for `isinstance` checks, as in Python where
`bool` is a subclass of `int`. -/
inductive PyValue where
  | vNone : PyValue
  | vBool (b : Bool) : PyValue
  | vInt (n : Int) : PyValue
  | vFloat (q : ℚ) : PyValue
  | vStr (s : String) : PyValue
  | vList (xs : List PyValue) : PyValue
  | vDict (xs : List (String × PyValue)) : PyValue

/-- A Python `dict` keyed by strings, in insertion/iteration order. -/
abbrev PyDict := List (String × PyValue)

/-- `key in d` for a Python dict. -/
def dictContains (d : PyDict) (key : String) : Bool :=
  d.any (fun p => p.1 == key)

/-- `d[key]` lookup returning the first (unique, for a real dict) match. -/
def dictLookup (d : PyDict) (key : String) : Option PyValue :=
  (d.find? (fun p => p.1 == key)).map (fun p => p.2)

/-- `d.get(key, default)`. -/
def dictGetD (d : PyDict) (key : String) (default : PyValue) : PyValue :=
  (dictLookup d key).getD default

/-- `isinstance(v, str)`. -/
def isStr : PyValue → Bool
  | .vStr _ => true
  | _ => false

/-- `isinstance(v, (int, float))`: true for `bool` as well, because Python's
`bool` is a subclass of `int`. -/
def isIntOrFloat : PyValue → Bool
  | .vBool _ => true
  | .vInt _ => true
  | .vFloat _ => true
  | _ => false

/-- `isinstance(v, bool)`. -/
def isBool : PyValue → Bool
  | .vBool _ => true
  | _ => false

/-- `isinstance(v, list)`. -/
def isList : PyValue → Bool
  | .vList _ => true
  | _ => false

/-- `isinstance(v, dict)`. -/
def isDict : PyValue → Bool
  | .vDict _ => true
  | _ => false

/-- Python truthiness of a value (`bool(v)`). -/
def pyTruthy : PyValue → Bool
  | .vNone => false
  | .vBool b => b
  | .vInt n => n != 0
  | .vFloat q => q != 0
  | .vStr s => s != ""
  | .vList xs => !xs.isEmpty
  | .vDict xs => !xs.isEmpty

/-- The parts of a tool's `input_schema` JSON dict that
`BaseTool.validate_arguments` reads: `schema.get("required", [])` and, for
each property, `properties[field].get("type")` (`none` when the property
declares no `"type"` key). -/
structure InputSchema where
  required : List String := []
  properties : List (String × Option String) := []

/-- First value bound to `key` in an association list (a Python dict access). -/
def lookupKey {α : Type} (xs : List (String × α)) (key : String) : Option α :=
  (xs.find? (fun p => p.1 == key)).map (fun p => p.2)

/-- The body of the type-checking `elif` chain in
`BaseTool.validate_arguments` (src/pty_mcp_server/lib/base.py lines
158-169), for one supplied field. Returns the error message the source
returns, or `none` when the field passes. -/
def checkFieldType (expected_type field : String) (value : PyValue) : Option String :=
  if expected_type == "string" then
    if isStr value then none else some ("Field '" ++ field ++ "' must be a string")
  else if expected_type == "number" then
    if isIntOrFloat value then none else some ("Field '" ++ field ++ "' must be a number")
  else if expected_type == "boolean" then
    if isBool value then none else some ("Field '" ++ field ++ "' must be a boolean")
  else if expected_type == "array" then
    if isList value then none else some ("Field '" ++ field ++ "' must be an array")
  else if expected_type == "object" then
    if isDict value then none else some ("Field '" ++ field ++ "' must be an object")
  else none

namespace BaseTool

/-- `BaseTool.validate_arguments` (src/pty_mcp_server/lib/base.py lines
140-171): first loop returns `Missing required field: f` for the first
required field absent from `arguments`; second loop returns the first
type-check failure over the supplied fields in dict order. A property with
no `"type"` key, or with a falsy (empty) type string, is skipped, as in
the source's `if expected_type:` guard. -/
def validate_arguments (schema : InputSchema) (arguments : PyDict) : Option String :=
  match schema.required.find? (fun field => !(dictContains arguments field)) with
  | some field => some ("Missing required field: " ++ field)
  | none =>
    arguments.findSome? (fun fv =>
      match lookupKey schema.properties fv.1 with
      | some (some expected_type) =>
        if expected_type == "" then none
        else checkFieldType expected_type fv.1 fv.2
      | some none => none
      | none => none)

end BaseTool

/-- `ToolResult` dataclass (src/pty_mcp_server/lib/base.py lines 29-52). -/
structure ToolResult where
  success : Bool
  content : String
  error : Option String := none
  deriving Repr, DecidableEq

/-- One `{"type": "text", "text": ...}` content block of an MCP response. -/
structure MCPContent where
  ty : String
  text : String
  deriving Repr, DecidableEq

/-- The `{"content": [...]}` envelope every registry call returns. -/
structure MCPResponse where
  content : List MCPContent
  deriving Repr, DecidableEq

/-- Envelope holding a single text block, the shape built everywhere in
`ToolRegistry.execute` and `ToolResult.to_mcp_response`. -/
def textResponse (text : String) : MCPResponse :=
  ⟨[⟨"text", text⟩]⟩

/-- `ToolResult.to_mcp_response`: success envelopes carry `content`;
failure envelopes carry `Error: ` followed by `self.error or self.content`
(Python `or`: the error string when it is truthy, i.e. present and
non-empty, else the content). -/
def ToolResult.to_mcp_response (r : ToolResult) : MCPResponse :=
  if r.success then textResponse r.content
  else
    let msg := match r.error with
      | some e => if e == "" then r.content else e
      | none => r.content
    textResponse ("Error: " ++ msg)

/-- A registered tool as `ToolRegistry.execute` sees it: its declared input
schema and its `execute` body. The handler is an oracle for arbitrary
plugin code: `.ok r` is a normal return of a `ToolResult`, `.error e` is a
raised exception with message `e`. -/
structure Tool where
  input_schema : InputSchema
  handler : PyDict → Except String ToolResult

/-- The registry's `_tools` mapping, in registration order. -/
abbrev Registry := List (String × Tool)

namespace ToolRegistry

/-- `ToolRegistry.get_tool`: `self._tools.get(name)`. -/
def get_tool (reg : Registry) (name : String) : Option Tool :=
  lookupKey reg name

/-- `ToolRegistry.execute` (src/pty_mcp_server/lib/registry.py lines
219-259). Returns the MCP envelope plus a flag recording whether the
handler's `execute` was invoked. Unknown tool → not-found envelope;
validation error → invalid-arguments envelope with the handler never
invoked; handler raising → caught and converted to an error envelope. The
function is total: no branch propagates an exception. -/
def execute (reg : Registry) (tool_name : String) (arguments : PyDict) :
    MCPResponse × Bool :=
  match get_tool reg tool_name with
  | none => (textResponse ("Tool '" ++ tool_name ++ "' not found"), false)
  | some tool =>
    match BaseTool.validate_arguments tool.input_schema arguments with
    | some error => (textResponse ("Invalid arguments: " ++ error), false)
    | none =>
      match tool.handler arguments with
      | .ok result => (result.to_mcp_response, true)
      | .error e => (textResponse ("Error executing tool: " ++ e), true)

end ToolRegistry

/-! ## Channel sessions (core/sessions/) -/

/-- Python `str.lower()` (character-wise lowercasing, as `protocol.lower()`
uses it on the ASCII protocol names). -/
def strLower (s : String) : String := ⟨s.data.map Char.toLower⟩

/-- Python `s.endswith(suffix)`. -/
def strEndsWith (s suffix : String) : Bool := suffix.data.isSuffixOf s.data

/-- A `subprocess.Popen` handle as the session code observes it: its pid
and the value `poll()` returns at the moment of observation (`none` while
the child is running, `some code` once it has exited). -/
structure Proc where
  pid : Int
  poll : Option Int
  deriving Repr, DecidableEq

/-- Python truthiness of an optional file descriptor attribute
(`if self.master_fd:`): false for `None` and for fd `0`. -/
def fdTruthy : Option Int → Bool
  | some n => n != 0
  | none => false

/-- `PTYSession` attribute state (src/pty_mcp_server/core/sessions/pty.py). -/
structure PTYSession where
  master_fd : Option Int := none
  slave_fd : Option Int := none
  process : Option Proc := none
  deriving Repr, DecidableEq

namespace PTYSession

/-- `PTYSession.start` (pty.py lines 37-65). OS effects are inputs:
`ptyPair` is what `pty.openpty()` returns, and `spawn` is the outcome of
`subprocess.Popen` (`.error e` = Popen raised; the command-line assembly
passed to Popen is abstracted into this oracle). Mirrors the source order:
the already-active guard fires before any mutation; the openpty result is
stored into `master_fd`/`slave_fd` before the spawn, so a spawn failure
propagates with both descriptors still held. -/
def start (s : PTYSession) (ptyPair : Int × Int) (spawn : Except String Proc) :
    PTYSession × Except String Bool :=
  if s.process.isSome then (s, .error "PTY session already active")
  else
    let s1 : PTYSession :=
      { s with master_fd := some ptyPair.1, slave_fd := some ptyPair.2 }
    match spawn with
    | .error e => (s1, .error e)
    | .ok p => ({ s1 with process := some p }, .ok true)

/-- `PTYSession.send` (pty.py lines 67-77): raises when no process handle is
stored; otherwise appends `\n` when the payload lacks one and returns the
byte string handed to `os.write`. -/
def send (s : PTYSession) (data : String) : Except String String :=
  if s.process.isNone then .error "No active PTY session"
  else
    let data := if strEndsWith data "\n" then data else data ++ "\n"
    .ok data

/-- The `if self.master_fd:` / `if self.slave_fd:` close block of
`PTYSession.terminate`, for one fd attribute. `osClose n` is the outcome of
`os.close(n)` (`some e` = OSError raised). When the attribute is falsy
(absent, or fd `0`) nothing happens; when `os.close` raises, the attribute
keeps its value (the `= None` assignment is not reached). Returns the new
attribute value and the raised error, if any. -/
def closeFdStep (fd : Option Int) (osClose : Int → Option String) :
    Option Int × Option String :=
  match fd with
  | some n =>
    if n == 0 then (some n, none)
    else
      match osClose n with
      | some e => (some n, some e)
      | none => (none, none)
  | none => (none, none)

/-- The two fd-closing blocks at the end of `PTYSession.terminate`
(pty.py lines 112-118): close `master_fd`, then `slave_fd`, stopping at
the first raised `os.close`. -/
def terminateFds (s : PTYSession) (osClose : Int → Option String) :
    PTYSession × Except String Bool :=
  match closeFdStep s.master_fd osClose with
  | (mfd, some e) => ({ s with master_fd := mfd }, .error e)
  | (mfd, none) =>
    let s2 : PTYSession := { s with master_fd := mfd }
    match closeFdStep s2.slave_fd osClose with
    | (sfd, some e) => ({ s2 with slave_fd := sfd }, .error e)
    | (sfd, none) => ({ s2 with slave_fd := sfd }, .ok true)

/-- `PTYSession.terminate` (pty.py lines 102-120): terminate/wait/kill the
child if a handle is stored (`procTermFail` is the outcome of that block —
`some e` means `process.terminate()` raised, leaving the attribute set),
then close `master_fd` and `slave_fd` in turn via `os.close`. -/
def terminate (s : PTYSession) (procTermFail : Option String)
    (osClose : Int → Option String) : PTYSession × Except String Bool :=
  match s.process with
  | some _ =>
    match procTermFail with
    | some e => (s, .error e)
    | none => terminateFds { s with process := none } osClose
  | none => terminateFds s osClose

/-- `PTYSession.is_active` (pty.py lines 122-124):
`self.process is not None and self.process.poll() is None`. -/
def is_active (s : PTYSession) : Bool :=
  match s.process with
  | some p => p.poll.isNone
  | none => false

end PTYSession

/-- `ProcessSession` attribute state
(src/pty_mcp_server/core/sessions/process.py). -/
structure ProcessSession where
  process : Option Proc := none
  deriving Repr, DecidableEq

namespace ProcessSession

/-- `ProcessSession.start` (process.py lines 16-37): already-active guard,
then `subprocess.Popen` whose outcome is the `spawn` input; a Popen failure
propagates with no attribute mutated. -/
def start (s : ProcessSession) (spawn : Except String Proc) :
    ProcessSession × Except String Bool :=
  if s.process.isSome then (s, .error "Process already active")
  else
    match spawn with
    | .error e => (s, .error e)
    | .ok p => ({ process := some p }, .ok true)

/-- `ProcessSession.send` (process.py lines 39-48): raises when no process
handle is stored; otherwise writes the payload and then a `\n` when the
payload lacks one. Returns the total string written to stdin. -/
def send (s : ProcessSession) (data : String) : Except String String :=
  if s.process.isNone then .error "No active process"
  else .ok (if strEndsWith data "\n" then data else data ++ "\n")

/-- `ProcessSession.terminate` (process.py lines 69-78): terminate/wait/kill
when a handle is stored (`procTermFail some e` = `process.terminate()`
raised with the attribute left set), then clear the attribute. -/
def terminate (s : ProcessSession) (procTermFail : Option String) :
    ProcessSession × Except String Bool :=
  match s.process with
  | some _ =>
    match procTermFail with
    | some e => (s, .error e)
    | none => ({ process := none }, .ok true)
  | none => (s, .ok true)

/-- `ProcessSession.is_active` (process.py lines 80-82). -/
def is_active (s : ProcessSession) : Bool :=
  match s.process with
  | some p => p.poll.isNone
  | none => false

end ProcessSession

/-- `SocketSession` attribute state
(src/pty_mcp_server/core/sessions/socket.py). The held socket object is
modelled by its OS handle number. -/
structure SocketSession where
  socket : Option Int := none
  host : Option String := none
  port : Option Int := none
  deriving Repr, DecidableEq

namespace SocketSession

/-- `SocketSession.open` (socket.py lines 17-32): already-open guard first;
unknown protocol raises before any mutation; otherwise the created socket
object (handle `newSock`) is stored in `self.socket` before
`connect((host, port))` runs, so a connect failure (`connectFail = some e`)
propagates with the socket attribute already set and `host`/`port` still
unset. -/
def «open» (s : SocketSession) (host : String) (port : Int) (protocol : String)
    (newSock : Int) (connectFail : Option String) :
    SocketSession × Except String Bool :=
  if s.socket.isSome then (s, .error "Socket already open")
  else if strLower protocol == "tcp" || strLower protocol == "udp" then
    let s1 : SocketSession := { s with socket := some newSock }
    match connectFail with
    | some e => (s1, .error e)
    | none => ({ s1 with host := some host, port := some port }, .ok true)
  else (s, .error ("Unknown protocol: " ++ protocol))

/-- `SocketSession.close` (socket.py lines 60-67): closes the held socket if
any (`closeFail some e` = `socket.close()` raised with the attributes left
set) and clears `socket`, `host`, `port`. -/
def close (s : SocketSession) (closeFail : Option String) :
    SocketSession × Except String Bool :=
  match s.socket with
  | some _ =>
    match closeFail with
    | some e => (s, .error e)
    | none => ({ socket := none, host := none, port := none }, .ok true)
  | none => (s, .ok true)

/-- `SocketSession.is_active` (socket.py lines 69-71). -/
def is_active (s : SocketSession) : Bool :=
  s.socket.isSome

end SocketSession

/-- A held `serial.Serial` object, as far as the session code observes it. -/
structure SerialPort where
  is_open : Bool
  deriving Repr, DecidableEq

/-- `SerialSession` attribute state
(src/pty_mcp_server/core/sessions/serial.py). -/
structure SerialSession where
  serial : Option SerialPort := none
  device : Option String := none
  baudrate : Option Int := none
  deriving Repr, DecidableEq

namespace SerialSession

/-- `SerialSession.open` (serial.py lines 16-42): after the pyserial import
check (assumed installed here), the already-open guard fires before any
mutation; `serial.Serial(**config)` (outcome `ctor`) either raises with no
attribute mutated or yields the port object stored together with `device`
and `baudrate`. -/
def «open» (s : SerialSession) (device : String) (baudrate : Int)
    (ctor : Except String SerialPort) : SerialSession × Except String Bool :=
  if s.serial.isSome then (s, .error "Serial port already open")
  else
    match ctor with
    | .error e => (s, .error e)
    | .ok sp =>
      ({ serial := some sp, device := some device, baudrate := some baudrate },
       .ok true)

/-- `SerialSession.close` (serial.py lines 76-83): closes the held port if
any (`closeFail some e` = `serial.close()` raised with attributes left set)
and clears `serial`, `device`, `baudrate`. -/
def close (s : SerialSession) (closeFail : Option String) :
    SerialSession × Except String Bool :=
  match s.serial with
  | some _ =>
    match closeFail with
    | some e => (s, .error e)
    | none => ({ serial := none, device := none, baudrate := none }, .ok true)
  | none => (s, .ok true)

/-- `SerialSession.is_active` (serial.py lines 85-87):
`self.serial is not None and self.serial.is_open`. -/
def is_active (s : SerialSession) : Bool :=
  match s.serial with
  | some sp => sp.is_open
  | none => false

end SerialSession

/-! ## Tmux session manager (core/sessions/tmux.py) -/

/-- One entry of `TmuxSessionManager.sessions`: the originating command and
the `created_at` timestamp. -/
structure TmuxEntry where
  command : String
  created_at : Nat
  deriving Repr, DecidableEq

/-- `TmuxSessionManager` state: the local tracking dict `self.sessions`
(a cache, keyed by session name, in insertion order). -/
structure TmuxSessionManager where
  sessions : List (String × TmuxEntry) := []
  deriving Repr, DecidableEq

/-- Python dict assignment `d[k] = v` on an insertion-ordered association
list: overwrite in place when the key exists, else append. -/
def listSet {α : Type} (xs : List (String × α)) (key : String) (v : α) :
    List (String × α) :=
  if xs.any (fun p => p.1 == key) then
    xs.map (fun p => if p.1 == key then (key, v) else p)
  else xs ++ [(key, v)]

/-- `key in d` on an association list. -/
def keysContain {α : Type} (xs : List (String × α)) (key : String) : Bool :=
  xs.any (fun p => p.1 == key)

/-- The result dict of `TmuxSessionManager.start_session`, with the keys
the source puts in each branch's dict (absent keys are `none`). -/
structure TmuxStartResult where
  success : Bool
  error : Option String := none
  session_name : Option String := none
  command : Option String := none
  message : Option String := none
  deriving Repr, DecidableEq

namespace TmuxSessionManager

/-- The already-exists error dict built at tmux.py lines 47-51. -/
def alreadyExistsResult (session_name : String) : TmuxStartResult :=
  { success := false
    error := some ("Session '" ++ session_name ++ "' already exists") }

/-- `TmuxSessionManager.start_session` (tmux.py lines 35-77). `daemonHas`
is the outcome of `self.session_exists(session_name)`, i.e. of the
authoritative `tmux has-session` query against the daemon (the local
`sessions` cache is never consulted). `spawn` is the outcome of the
`tmux new-session -d` subprocess (`.error stderr` = nonzero exit), and
`now` is `int(time.time())`. Returns the new state, the result dict, and a
flag recording whether the `new-session` command was issued. -/
def start_session (st : TmuxSessionManager) (session_name command : String)
    (daemonHas : Bool) (spawn : Except String Unit) (now : Nat) :
    TmuxSessionManager × TmuxStartResult × Bool :=
  if daemonHas then (st, alreadyExistsResult session_name, false)
  else
    match spawn with
    | .error stderr =>
      (st, { success := false
             error := some ("Failed to create session: " ++ stderr) }, true)
    | .ok _ =>
      ({ sessions := listSet st.sessions session_name ⟨command, now⟩ },
       { success := true
         session_name := some session_name
         command := some command
         message := some ("Started tmux session '" ++ session_name ++ "'") },
       true)

/-- `TmuxSessionManager.cleanup_all` (tmux.py lines 247-251): clears only
the local tracking cache; the daemon-side sessions are deliberately left
running. -/
def cleanup_all (_st : TmuxSessionManager) : TmuxSessionManager :=
  { sessions := [] }

end TmuxSessionManager

/-! ## SessionManager (core/manager.py) -/

/-- `SessionManager` session slots (manager.py lines 70-76). The project
and configuration attributes (`active_project`, `projects_config`,
`env_manager`, `config`) are not modelled: none of the verified operations
reads or writes them. -/
structure SessionManager where
  pty_session : Option PTYSession := none
  proc_session : Option ProcessSession := none
  socket_session : Option SocketSession := none
  serial_session : Option SerialSession := none
  tmux_manager : Option TmuxSessionManager := none
  deriving Repr, DecidableEq

/-- The OS outcomes the individual cleanup calls inside
`SessionManager.cleanup_all` can encounter: `none`/`fun _ => none`
everywhere means every OS call succeeds. -/
structure CleanupFailures where
  ptyTermFail : Option String := none
  ptyOsClose : Int → Option String := fun _ => none
  procTermFail : Option String := none
  socketCloseFail : Option String := none
  serialCloseFail : Option String := none

namespace SessionManager

/-- `if self.pty_session: self.pty_session.terminate()` (manager.py lines
166-167). The slot keeps the in-place-mutated session object; a raised
exception is returned alongside. -/
def cleanupPtyStep (m : SessionManager) (f : CleanupFailures) :
    SessionManager × Option String :=
  match m.pty_session with
  | some s =>
    match s.terminate f.ptyTermFail f.ptyOsClose with
    | (s', .error e) => ({ m with pty_session := some s' }, some e)
    | (s', .ok _) => ({ m with pty_session := some s' }, none)
  | none => (m, none)

/-- `if self.proc_session: self.proc_session.terminate()` (manager.py lines
168-169). -/
def cleanupProcStep (m : SessionManager) (f : CleanupFailures) :
    SessionManager × Option String :=
  match m.proc_session with
  | some s =>
    match s.terminate f.procTermFail with
    | (s', .error e) => ({ m with proc_session := some s' }, some e)
    | (s', .ok _) => ({ m with proc_session := some s' }, none)
  | none => (m, none)

/-- `if self.socket_session: self.socket_session.close()` (manager.py lines
170-171). -/
def cleanupSocketStep (m : SessionManager) (f : CleanupFailures) :
    SessionManager × Option String :=
  match m.socket_session with
  | some s =>
    match s.close f.socketCloseFail with
    | (s', .error e) => ({ m with socket_session := some s' }, some e)
    | (s', .ok _) => ({ m with socket_session := some s' }, none)
  | none => (m, none)

/-- `if self.serial_session: self.serial_session.close()` (manager.py lines
172-173). -/
def cleanupSerialStep (m : SessionManager) (f : CleanupFailures) :
    SessionManager × Option String :=
  match m.serial_session with
  | some s =>
    match s.close f.serialCloseFail with
    | (s', .error e) => ({ m with serial_session := some s' }, some e)
    | (s', .ok _) => ({ m with serial_session := some s' }, none)
  | none => (m, none)

/-- `SessionManager.cleanup_all` (manager.py lines 151-175): calls the
five cleanup blocks in source order with no exception handling, so a raise
in an earlier block propagates immediately and the later blocks do not run.
No slot is set to `None`. -/
def cleanup_all (m : SessionManager) (f : CleanupFailures) :
    SessionManager × Except String Unit :=
  match cleanupPtyStep m f with
  | (m1, some e) => (m1, .error e)
  | (m1, none) =>
    match cleanupProcStep m1 f with
    | (m2, some e) => (m2, .error e)
    | (m2, none) =>
      match cleanupSocketStep m2 f with
      | (m3, some e) => (m3, .error e)
      | (m3, none) =>
        match cleanupSerialStep m3 f with
        | (m4, some e) => (m4, .error e)
        | (m4, none) =>
          match m4.tmux_manager with
          | some t =>
            ({ m4 with tmux_manager := some (t.cleanup_all) }, .ok ())
          | none => (m4, .ok ())

/-- `SessionManager.get_pty_session` (manager.py lines 112-116):
get-or-create; a newly constructed `PTYSession` starts with every
attribute `None`. Returns the updated manager and the returned session. -/
def get_pty_session (m : SessionManager) : SessionManager × PTYSession :=
  match m.pty_session with
  | some s => (m, s)
  | none => ({ m with pty_session := some {} }, {})

/-- `SessionManager.get_proc_session` (manager.py lines 118-122). -/
def get_proc_session (m : SessionManager) : SessionManager × ProcessSession :=
  match m.proc_session with
  | some s => (m, s)
  | none => ({ m with proc_session := some {} }, {})

/-- `SessionManager.get_socket_session` (manager.py lines 124-128). -/
def get_socket_session (m : SessionManager) : SessionManager × SocketSession :=
  match m.socket_session with
  | some s => (m, s)
  | none => ({ m with socket_session := some {} }, {})

/-- `SessionManager.get_serial_session` (manager.py lines 130-134). -/
def get_serial_session (m : SessionManager) : SessionManager × SerialSession :=
  match m.serial_session with
  | some s => (m, s)
  | none => ({ m with serial_session := some {} }, {})

end SessionManager

/-! ## Close-path tool plugins -/

namespace DisconnectTool

/-- `DisconnectTool.execute` (src/pty_mcp_server/plugins/terminal/
disconnect.py lines 32-67): no manager → error result; inactive session →
error result (the get-or-create may have populated the slot); otherwise
`terminate()` inside `try`, clearing `self.session_manager.pty_session`
only on success — a raised terminate is caught, returned as an error
result, and leaves the (in-place-mutated) session in the slot. -/
def execute (mgr : Option SessionManager) (procTermFail : Option String)
    (osClose : Int → Option String) : Option SessionManager × ToolResult :=
  match mgr with
  | none => (none, { success := false, content := "", error := some "No session manager available" })
  | some m =>
    let (m1, pty) := m.get_pty_session
    if !pty.is_active then
      (some m1, { success := false, content := "", error := some "No active PTY session" })
    else
      match pty.terminate procTermFail osClose with
      | (s', .error e) =>
        (some { m1 with pty_session := some s' },
         { success := false, content := "", error := some e })
      | (_, .ok _) =>
        (some { m1 with pty_session := none },
         { success := true, content := "PTY session terminated" })

end DisconnectTool

namespace KillProcTool

/-- `KillProcTool.execute` (src/pty_mcp_server/plugins/process/kill_proc.py
lines 32-67): same shape as the PTY disconnect tool, for the process
session slot. -/
def execute (mgr : Option SessionManager) (procTermFail : Option String) :
    Option SessionManager × ToolResult :=
  match mgr with
  | none => (none, { success := false, content := "", error := some "No session manager available" })
  | some m =>
    let (m1, proc) := m.get_proc_session
    if !proc.is_active then
      (some m1, { success := false, content := "", error := some "No active process to kill" })
    else
      match proc.terminate procTermFail with
      | (s', .error e) =>
        (some { m1 with proc_session := some s' },
         { success := false, content := "", error := some e })
      | (_, .ok _) =>
        (some { m1 with proc_session := none },
         { success := true, content := "Process terminated" })

end KillProcTool

/-- Python `f"...{x}..."` rendering of an `Option String` attribute:
`None` prints as `None`. -/
def formatOptStr : Option String → String
  | some s => s
  | none => "None"

namespace SerialCloseTool

/-- `SerialCloseTool.execute` (src/pty_mcp_server/plugins/serial/
serial_close.py lines 38-73): same shape as the PTY disconnect tool, for
the serial session slot; the success content names the device read before
closing. -/
def execute (mgr : Option SessionManager) (closeFail : Option String) :
    Option SessionManager × ToolResult :=
  match mgr with
  | none => (none, { success := false, content := "", error := some "No session manager available" })
  | some m =>
    let (m1, ser) := m.get_serial_session
    if !ser.is_active then
      (some m1, { success := false, content := "", error := some "No active serial connection" })
    else
      let device := ser.device
      match ser.close closeFail with
      | (s', .error e) =>
        (some { m1 with serial_session := some s' },
         { success := false, content := "", error := some e })
      | (_, .ok _) =>
        (some { m1 with serial_session := none },
         { success := true,
           content := "Serial connection closed: " ++ formatOptStr device })

end SerialCloseTool

namespace SerialMessageTool

/-- The message-preparation step of `SerialMessageTool.execute`
(src/pty_mcp_server/plugins/serial/serial_message.py lines 69-80): reads
`message` via `arguments.get("message", "")` (the string case; a
non-string raises later and is out of scope here) and `add_newline` via
`arguments.get("add_newline", True)` (branching on its Python truthiness),
appends `\r\n` when requested and missing, and returns the exact string
handed to `serial_session.send`, i.e. the bytes written. A non-string
`message` value yields `none`: on it, `message.endswith` raises an
AttributeError that the tool's `except` turns into an error result, so
nothing is sent. -/
def preparedMessage (arguments : PyDict) : Option String :=
  match dictGetD arguments "message" (.vStr "") with
  | .vStr message =>
    let add_newline := dictGetD arguments "add_newline" (.vBool true)
    some (if pyTruthy add_newline && !(strEndsWith message "\r\n") then
            message ++ "\r\n"
          else message)
  | _ => none

end SerialMessageTool

/-! ## Claim theorems -/

/-- C10: for a field whose declared schema type is `number`, a Python
boolean passes `validate_arguments`' type check (booleans are instances of
`int`), so supplying `true`/`false` for a numeric field such as a timeout
or port produces no validation error and the call reaches the handler. -/
theorem C10_bool_accepted_for_number_field :
    ∀ (field : String) (b : Bool),
      checkFieldType "number" field (.vBool b) = none ∧
      BaseTool.validate_arguments
        ⟨[field], [(field, some "number")]⟩ [(field, .vBool b)] = none := by
  intro field b
  refine ⟨by simp [checkFieldType, isIntOrFloat], ?_⟩
  simp [BaseTool.validate_arguments, dictContains, lookupKey, checkFieldType,
    isIntOrFloat]

/-- C2: for every channel variant (PTY, process, socket, serial), a second
`open`/`start` while a handle is already held fails with the
already-open/already-active error, and the failing call leaves the
channel's state exactly as it was. -/
theorem C2_second_open_fails_and_preserves_state :
    (∀ (s : PTYSession) (pair : Int × Int) (spawn : Except String Proc),
        s.process.isSome = true →
        s.start pair spawn = (s, .error "PTY session already active")) ∧
    (∀ (s : ProcessSession) (spawn : Except String Proc),
        s.process.isSome = true →
        s.start spawn = (s, .error "Process already active")) ∧
    (∀ (s : SocketSession) (host : String) (port : Int) (protocol : String)
        (newSock : Int) (connectFail : Option String),
        s.socket.isSome = true →
        s.«open» host port protocol newSock connectFail =
          (s, .error "Socket already open")) ∧
    (∀ (s : SerialSession) (device : String) (baudrate : Int)
        (ctor : Except String SerialPort),
        s.serial.isSome = true →
        s.«open» device baudrate ctor = (s, .error "Serial port already open")) := by
  refine ⟨?_, ?_, ?_, ?_⟩ <;> intros <;>
    simp_all [PTYSession.start, ProcessSession.start, SocketSession.«open»,
      SerialSession.«open»]

/-- Witness for C2 at concrete open channels. -/
theorem C2_witness :
    ((⟨some 3, some 4, some ⟨42, none⟩⟩ : PTYSession).process.isSome = true ∧
      (⟨some 3, some 4, some ⟨42, none⟩⟩ : PTYSession).start (5, 6) (.ok ⟨7, none⟩) =
        (⟨some 3, some 4, some ⟨42, none⟩⟩, .error "PTY session already active")) ∧
    ((⟨some ⟨9, none⟩⟩ : ProcessSession).process.isSome = true ∧
      (⟨some ⟨9, none⟩⟩ : ProcessSession).start (.ok ⟨7, none⟩) =
        (⟨some ⟨9, none⟩⟩, .error "Process already active")) ∧
    ((⟨some 5, some "h", some 80⟩ : SocketSession).socket.isSome = true ∧
      (⟨some 5, some "h", some 80⟩ : SocketSession).«open» "x" 81 "tcp" 6 none =
        (⟨some 5, some "h", some 80⟩, .error "Socket already open")) ∧
    ((⟨some ⟨true⟩, some "/dev/ttyUSB0", some 9600⟩ : SerialSession).serial.isSome = true ∧
      (⟨some ⟨true⟩, some "/dev/ttyUSB0", some 9600⟩ : SerialSession).«open»
          "/dev/ttyUSB1" 115200 (.ok ⟨true⟩) =
        (⟨some ⟨true⟩, some "/dev/ttyUSB0", some 9600⟩,
         .error "Serial port already open")) :=
  ⟨⟨rfl, C2_second_open_fails_and_preserves_state.1 _ (5, 6) (.ok ⟨7, none⟩) rfl⟩,
   ⟨rfl, C2_second_open_fails_and_preserves_state.2.1 _ (.ok ⟨7, none⟩) rfl⟩,
   ⟨rfl, C2_second_open_fails_and_preserves_state.2.2.1 _ "x" 81 "tcp" 6 none rfl⟩,
   ⟨rfl, C2_second_open_fails_and_preserves_state.2.2.2 _ "/dev/ttyUSB1" 115200
      (.ok ⟨true⟩) rfl⟩⟩

/-- C9: for the PTY and process sessions, once the child has exited on its
own (`poll()` returns an exit code, so `is_active` is false) but
`terminate` was never called, the process handle is still stored, and a
further `start` still raises the already-active error: the open guard
tests handle presence, not liveness. -/
theorem C9_exited_child_still_blocks_restart :
    (∀ (s : PTYSession) (p : Proc) (code : Int),
        s.process = some p → p.poll = some code →
        s.is_active = false ∧
        ∀ (pair : Int × Int) (spawn : Except String Proc),
          s.start pair spawn = (s, .error "PTY session already active")) ∧
    (∀ (s : ProcessSession) (p : Proc) (code : Int),
        s.process = some p → p.poll = some code →
        s.is_active = false ∧
        ∀ (spawn : Except String Proc),
          s.start spawn = (s, .error "Process already active")) := by
  constructor <;> intro s p code hp hpoll <;>
    simp_all [PTYSession.is_active, PTYSession.start,
      ProcessSession.is_active, ProcessSession.start]

/-- Witness for C9: a session whose child exited with code 0. -/
theorem C9_witness :
    ((⟨some 3, some 4, some ⟨42, some 0⟩⟩ : PTYSession).process = some ⟨42, some 0⟩ ∧
      (Proc.mk 42 (some 0)).poll = some 0 ∧
      (⟨some 3, some 4, some ⟨42, some 0⟩⟩ : PTYSession).is_active = false ∧
      (⟨some 3, some 4, some ⟨42, some 0⟩⟩ : PTYSession).start (5, 6) (.ok ⟨7, none⟩) =
        (⟨some 3, some 4, some ⟨42, some 0⟩⟩, .error "PTY session already active")) ∧
    ((⟨some ⟨9, some 1⟩⟩ : ProcessSession).process = some ⟨9, some 1⟩ ∧
      (⟨some ⟨9, some 1⟩⟩ : ProcessSession).is_active = false ∧
      (⟨some ⟨9, some 1⟩⟩ : ProcessSession).start (.ok ⟨7, none⟩) =
        (⟨some ⟨9, some 1⟩⟩, .error "Process already active")) :=
  ⟨⟨rfl, rfl,
    (C9_exited_child_still_blocks_restart.1 _ ⟨42, some 0⟩ 0 rfl rfl).1,
    (C9_exited_child_still_blocks_restart.1 _ ⟨42, some 0⟩ 0 rfl rfl).2 (5, 6)
      (.ok ⟨7, none⟩)⟩,
   ⟨rfl,
    (C9_exited_child_still_blocks_restart.2 _ ⟨9, some 1⟩ 1 rfl rfl).1,
    (C9_exited_child_still_blocks_restart.2 _ ⟨9, some 1⟩ 1 rfl rfl).2
      (.ok ⟨7, none⟩)⟩⟩

/-- C6: on an open line-oriented channel, `send` writes exactly the payload
when it already ends with the line terminator, and exactly the payload
plus one appended terminator when it does not (`\n` for the PTY and
process sessions; `\r\n` for the serial message tool with its
`add_newline` argument left at the default). -/
theorem C6_send_appends_at_most_one_terminator :
    (∀ (s : PTYSession) (data : String), s.process.isSome = true →
        (strEndsWith data "\n" = true → s.send data = .ok data) ∧
        (strEndsWith data "\n" = false → s.send data = .ok (data ++ "\n"))) ∧
    (∀ (s : ProcessSession) (data : String), s.process.isSome = true →
        (strEndsWith data "\n" = true → s.send data = .ok data) ∧
        (strEndsWith data "\n" = false → s.send data = .ok (data ++ "\n"))) ∧
    (∀ (arguments : PyDict) (message : String),
        dictLookup arguments "message" = some (.vStr message) →
        dictLookup arguments "add_newline" = none →
        (strEndsWith message "\r\n" = true →
          SerialMessageTool.preparedMessage arguments = some message) ∧
        (strEndsWith message "\r\n" = false →
          SerialMessageTool.preparedMessage arguments =
            some (message ++ "\r\n"))) := by
  refine ⟨?_, ?_, ?_⟩
  · intro s data h
    constructor <;> intro he <;>
      simp_all [PTYSession.send, Option.isNone_iff_eq_none,
        Option.isSome_iff_ne_none]
  · intro s data h
    constructor <;> intro he <;>
      simp_all [ProcessSession.send, Option.isNone_iff_eq_none,
        Option.isSome_iff_ne_none]
  · intro arguments message hmsg hnl
    constructor <;> intro he <;>
      simp_all [SerialMessageTool.preparedMessage, dictGetD, pyTruthy]

/-- Witness for C6 on concrete payloads with and without terminators. -/
theorem C6_witness :
    ((⟨none, none, some ⟨42, none⟩⟩ : PTYSession).send "ls" = .ok "ls\n" ∧
      (⟨none, none, some ⟨42, none⟩⟩ : PTYSession).send "ls\n" = .ok "ls\n") ∧
    ((⟨some ⟨9, none⟩⟩ : ProcessSession).send "pwd" = .ok "pwd\n" ∧
      (⟨some ⟨9, none⟩⟩ : ProcessSession).send "pwd\n" = .ok "pwd\n") ∧
    (SerialMessageTool.preparedMessage [("message", .vStr "AT")] =
      some "AT\r\n" ∧
     SerialMessageTool.preparedMessage [("message", .vStr "AT\r\n")] =
      some "AT\r\n") :=
  ⟨⟨(C6_send_appends_at_most_one_terminator.1 ⟨none, none, some ⟨42, none⟩⟩
      "ls" rfl).2 (by decide),
    (C6_send_appends_at_most_one_terminator.1 ⟨none, none, some ⟨42, none⟩⟩
      "ls\n" rfl).1 (by decide)⟩,
   ⟨(C6_send_appends_at_most_one_terminator.2.1 ⟨some ⟨9, none⟩⟩
      "pwd" rfl).2 (by decide),
    (C6_send_appends_at_most_one_terminator.2.1 ⟨some ⟨9, none⟩⟩
      "pwd\n" rfl).1 (by decide)⟩,
   ⟨(C6_send_appends_at_most_one_terminator.2.2 [("message", .vStr "AT")] "AT"
      rfl rfl).2 (by decide),
    (C6_send_appends_at_most_one_terminator.2.2 [("message", .vStr "AT\r\n")]
      "AT\r\n" rfl rfl).1 (by decide)⟩⟩

/-- C3: evaluation of the code at the failing inputs. A fresh `PTYSession`
whose `pty.openpty()` yields descriptors `(3, 4)` and whose
`subprocess.Popen` raises ends the failed `start` still holding both
descriptors; a fresh `SocketSession` whose `connect` raises ends the
failed `open` still holding the created socket object. Acquisition is not
all-or-nothing. -/
theorem C3_failed_start_leaks_handles :
    PTYSession.start {} (3, 4) (.error "FileNotFoundError: nonexistent-command") =
      ({ master_fd := some 3, slave_fd := some 4, process := none },
       .error "FileNotFoundError: nonexistent-command") ∧
    SocketSession.«open» {} "127.0.0.1" 9 "tcp" 7
        (some "ConnectionRefusedError: connection refused") =
      ({ socket := some 7, host := none, port := none },
       .error "ConnectionRefusedError: connection refused") :=
  ⟨rfl, rfl⟩

/-- C1: `ToolRegistry.execute` always returns an envelope, for every tool
name and argument map: unknown name → not-found envelope with no exception;
a validation error → invalid-arguments envelope with the handler never
invoked (and a missing required field is reported by name); a
handler-raised exception → caught and converted to an error envelope. -/
theorem C1_execute_returns_envelope_never_propagates :
    ∀ (reg : Registry) (tool_name : String) (arguments : PyDict),
      (ToolRegistry.get_tool reg tool_name = none →
        ToolRegistry.execute reg tool_name arguments =
          (textResponse ("Tool '" ++ tool_name ++ "' not found"), false)) ∧
      (∀ tool, ToolRegistry.get_tool reg tool_name = some tool →
        (∀ err, BaseTool.validate_arguments tool.input_schema arguments = some err →
          ToolRegistry.execute reg tool_name arguments =
            (textResponse ("Invalid arguments: " ++ err), false)) ∧
        (∀ field,
          tool.input_schema.required.find?
              (fun f => !(dictContains arguments f)) = some field →
          BaseTool.validate_arguments tool.input_schema arguments =
            some ("Missing required field: " ++ field)) ∧
        (BaseTool.validate_arguments tool.input_schema arguments = none →
          (∀ e, tool.handler arguments = .error e →
            ToolRegistry.execute reg tool_name arguments =
              (textResponse ("Error executing tool: " ++ e), true)) ∧
          (∀ r, tool.handler arguments = .ok r →
            ToolRegistry.execute reg tool_name arguments =
              (r.to_mcp_response, true)))) := by
  intro reg tool_name arguments
  refine ⟨fun h => ?_, fun tool h => ⟨fun err hv => ?_, fun field hf => ?_,
    fun hv => ⟨fun e he => ?_, fun r hr => ?_⟩⟩⟩
  · simp [ToolRegistry.execute, h]
  · simp [ToolRegistry.execute, h, hv]
  · simp [BaseTool.validate_arguments, hf]
  · simp [ToolRegistry.execute, h, hv, he]
  · simp [ToolRegistry.execute, h, hv, hr]

/-- A registered tool used to witness C1: requires a string field `x` and
raises from its handler. -/
def demoTool : Tool :=
  { input_schema := ⟨["x"], [("x", some "string")]⟩
    handler := fun _ => .error "boom" }

/-- The witness registry holding only `demoTool` under the name `demo`. -/
def demoReg : Registry := [("demo", demoTool)]

/-- Witness for C1 on `demoReg`: unknown tool, missing required field, and
a raising handler. -/
theorem C1_witness :
    (ToolRegistry.get_tool demoReg "no-such-tool" = none ∧
      ToolRegistry.execute demoReg "no-such-tool" [] =
        (textResponse "Tool 'no-such-tool' not found", false)) ∧
    (ToolRegistry.get_tool demoReg "demo" = some demoTool ∧
      BaseTool.validate_arguments demoTool.input_schema [] =
        some "Missing required field: x" ∧
      ToolRegistry.execute demoReg "demo" [] =
        (textResponse "Invalid arguments: Missing required field: x", false)) ∧
    (BaseTool.validate_arguments demoTool.input_schema [("x", .vStr "go")] = none ∧
      demoTool.handler [("x", .vStr "go")] = .error "boom" ∧
      ToolRegistry.execute demoReg "demo" [("x", .vStr "go")] =
        (textResponse "Error executing tool: boom", true)) :=
  ⟨⟨rfl, (C1_execute_returns_envelope_never_propagates demoReg "no-such-tool" []).1 rfl⟩,
   ⟨rfl, ((C1_execute_returns_envelope_never_propagates demoReg "demo" []).2
      demoTool rfl).2.1 "x" rfl,
    ((C1_execute_returns_envelope_never_propagates demoReg "demo" []).2
      demoTool rfl).1 "Missing required field: x"
      (((C1_execute_returns_envelope_never_propagates demoReg "demo" []).2
        demoTool rfl).2.1 "x" rfl)⟩,
   ⟨by simp [BaseTool.validate_arguments, demoTool, dictContains, lookupKey,
      checkFieldType, isStr],
    rfl,
    (((C1_execute_returns_envelope_never_propagates demoReg "demo"
        [("x", .vStr "go")]).2 demoTool rfl).2.2
      (by simp [BaseTool.validate_arguments, demoTool, dictContains, lookupKey,
        checkFieldType, isStr])).1 "boom" rfl⟩⟩

/-- The spawn-failure message of `start_session` can never collide with its
already-exists message (their first characters differ), so the
already-exists error identifies the daemon-has-session branch uniquely. -/
theorem spawnMsg_ne_alreadyMsg (stderr session_name : String) :
    ("Failed to create session: " ++ stderr) ≠
      ("Session '" ++ (session_name ++ "' already exists")) := by
  intro h
  have h2 := congrArg (fun s => s.data.head?) h
  simp only [String.data_append, List.head?_append, List.head?_cons,
    Option.or] at h2
  exact absurd (Option.some.inj h2) (by decide)

/-- Python dict assignment leaves the assigned key present. -/
theorem keysContain_listSet {α : Type} (xs : List (String × α)) (key : String)
    (v : α) : keysContain (listSet xs key v) key = true := by
  rcases h : xs.any (fun p => p.1 == key) with hf | ht
  · simp [keysContain, listSet, h]
  · simp only [keysContain, listSet, h, if_true, List.any_map]
    obtain ⟨p, hp, hpk⟩ := List.any_eq_true.1 h
    exact List.any_eq_true.2 ⟨p, hp, by simp [Function.comp, hpk]⟩

/-- C7: `start_session` fails with the already-exists error exactly when
the authoritative `tmux has-session` daemon query reports the name as
existing — independently of the local tracking cache, which the check
never consults; on that failure no `new-session` command is issued and the
cache is unchanged, and on success the name is recorded in the cache. -/
theorem C7_start_session_trusts_daemon_not_cache :
    ∀ (st : TmuxSessionManager) (session_name command : String)
      (spawn : Except String Unit) (now : Nat),
      (st.start_session session_name command true spawn now =
        (st, TmuxSessionManager.alreadyExistsResult session_name, false)) ∧
      ((st.start_session session_name command false spawn now).2.1.error ≠
        some ("Session '" ++ session_name ++ "' already exists")) ∧
      (spawn = .ok () →
        (st.start_session session_name command false spawn now).2.1.success = true ∧
        keysContain (st.start_session session_name command false spawn now).1.sessions
          session_name = true) ∧
      (∀ stderr, spawn = .error stderr →
        st.start_session session_name command false spawn now =
          (st, { success := false
                 error := some ("Failed to create session: " ++ stderr) }, true)) ∧
      (∀ (st' : TmuxSessionManager) (daemonHas : Bool),
        (st.start_session session_name command daemonHas spawn now).2 =
          (st'.start_session session_name command daemonHas spawn now).2) := by
  intro st session_name command spawn now
  refine ⟨rfl, ?_, fun hspawn => ?_, fun stderr hspawn => ?_,
    fun st' daemonHas => ?_⟩
  · cases spawn with
    | ok u =>
      simp [TmuxSessionManager.start_session]
    | error stderr =>
      simp only [TmuxSessionManager.start_session, if_neg Bool.false_ne_true,
        Bool.false_eq_true, if_false]
      intro h
      exact spawnMsg_ne_alreadyMsg stderr session_name
        (by simpa [String.append_assoc] using Option.some.inj h)
  · subst hspawn
    exact ⟨rfl, keysContain_listSet st.sessions session_name ⟨command, now⟩⟩
  · subst hspawn
    rfl
  · cases daemonHas <;> cases spawn <;> rfl

/-- Witness for C7: a cache already containing `s1` does not cause an
already-exists failure when the daemon reports no such session, and a
daemon hit fails without touching the cache even when the cache is empty. -/
theorem C7_witness :
    ((⟨[]⟩ : TmuxSessionManager).start_session "s1" "bash" true (.ok ()) 100 =
      (⟨[]⟩, TmuxSessionManager.alreadyExistsResult "s1", false)) ∧
    ((⟨[("s1", ⟨"bash", 50⟩)]⟩ : TmuxSessionManager).start_session "s1" "bash"
        false (.ok ()) 100).2.1.success = true ∧
    keysContain ((⟨[("s1", ⟨"bash", 50⟩)]⟩ : TmuxSessionManager).start_session
        "s1" "bash" false (.ok ()) 100).1.sessions "s1" = true ∧
    ((⟨[]⟩ : TmuxSessionManager).start_session "s1" "bash" false
        (.error "tmux failed") 100 =
      (⟨[]⟩, { success := false
               error := some "Failed to create session: tmux failed" }, true)) :=
  ⟨(C7_start_session_trusts_daemon_not_cache ⟨[]⟩ "s1" "bash" (.ok ()) 100).1,
   ((C7_start_session_trusts_daemon_not_cache ⟨[("s1", ⟨"bash", 50⟩)]⟩ "s1"
      "bash" (.ok ()) 100).2.2.1 rfl).1,
   ((C7_start_session_trusts_daemon_not_cache ⟨[("s1", ⟨"bash", 50⟩)]⟩ "s1"
      "bash" (.ok ()) 100).2.2.1 rfl).2,
   by
     have := (C7_start_session_trusts_daemon_not_cache ⟨[]⟩ "s1" "bash"
       (.error "tmux failed") 100).2.2.2.1 "tmux failed" rfl
     simpa using this⟩

/-- After a non-raising pass of the `if self.master_fd:` close block, the
fd attribute is cleared — or it held fd `0`, which the truthiness test
skips, leaving it as is. -/
theorem closeFdStep_ok_shape (fd fd' : Option Int) (oc : Int → Option String)
    (h : PTYSession.closeFdStep fd oc = (fd', none)) :
    fd' = none ∨ fd' = some 0 := by
  cases fd with
  | none =>
    simp [PTYSession.closeFdStep] at h
    exact Or.inl h.symm
  | some n =>
    by_cases hn : (n == 0) = true
    · simp [PTYSession.closeFdStep, hn] at h
      have hn0 : n = 0 := by simpa using hn
      exact Or.inr (by rw [← h, hn0])
    · cases hoc : oc n with
      | some e => simp [PTYSession.closeFdStep, hn, hoc] at h
      | none =>
        simp [PTYSession.closeFdStep, hn, hoc] at h
        exact Or.inl h.symm

/-- The close block does nothing on a cleared fd attribute or on fd `0`. -/
theorem closeFdStep_of_closed (fd : Option Int) (oc : Int → Option String)
    (h : fd = none ∨ fd = some 0) :
    PTYSession.closeFdStep fd oc = (fd, none) := by
  rcases h with h | h <;> subst h <;> rfl

/-- A non-raising run of the fd-closing blocks preserves the process
attribute and leaves both fd attributes cleared or at the skipped fd 0. -/
theorem terminateFds_ok_shape (s s' : PTYSession) (oc : Int → Option String)
    (h : PTYSession.terminateFds s oc = (s', .ok true)) :
    s'.process = s.process ∧ (s'.master_fd = none ∨ s'.master_fd = some 0) ∧
      (s'.slave_fd = none ∨ s'.slave_fd = some 0) := by
  unfold PTYSession.terminateFds at h
  rcases h1 : PTYSession.closeFdStep s.master_fd oc with ⟨mfd, me⟩
  rw [h1] at h
  cases me with
  | some e => simp at h
  | none =>
    rcases h2 : PTYSession.closeFdStep s.slave_fd oc with ⟨sfd, se⟩
    simp only at h
    rw [h2] at h
    cases se with
    | some e => simp at h
    | none =>
      simp only [Prod.mk.injEq] at h
      rw [← h.1]
      exact ⟨rfl, closeFdStep_ok_shape _ _ _ h1, closeFdStep_ok_shape _ _ _ h2⟩

/-- A non-raising `terminate` leaves the process handle cleared and the fd
attributes cleared or at the skipped fd 0. -/
theorem terminate_ok_shape (s s' : PTYSession) (ptf : Option String)
    (oc : Int → Option String) (h : s.terminate ptf oc = (s', .ok true)) :
    s'.process = none ∧ (s'.master_fd = none ∨ s'.master_fd = some 0) ∧
      (s'.slave_fd = none ∨ s'.slave_fd = some 0) := by
  unfold PTYSession.terminate at h
  cases hp : s.process with
  | some p =>
    rw [hp] at h
    cases ptf with
    | some e => simp at h
    | none =>
      have hsh := terminateFds_ok_shape _ _ _ h
      simpa using hsh
  | none =>
    rw [hp] at h
    have hsh := terminateFds_ok_shape _ _ _ h
    rw [hp] at hsh
    exact hsh

/-- `terminate` on a session whose handles are already released (cleared,
or fd 0 which the truthiness test skips) makes no OS call, raises nothing,
and returns the state unchanged. -/
theorem terminate_of_closed (s : PTYSession) (hp : s.process = none)
    (hm : s.master_fd = none ∨ s.master_fd = some 0)
    (hs : s.slave_fd = none ∨ s.slave_fd = some 0)
    (ptf : Option String) (oc : Int → Option String) :
    s.terminate ptf oc = (s, .ok true) := by
  obtain ⟨mf, sf, pr⟩ := s
  simp only at hp hm hs
  subst hp
  rcases hm with h | h <;> rcases hs with h2 | h2 <;> subst h <;> subst h2 <;> rfl

/-- C5: for every channel variant, close/terminate is idempotent: on an
already-closed (or never-opened) channel it makes no OS call, raises
nothing (it succeeds under every OS-failure oracle), returns normally and
leaves `is_active` false; and after any successful close, a second close
returns the same state again, so calling it twice equals calling it
once. -/
theorem C5_close_idempotent :
    (∀ (s : PTYSession), s.process = none → s.master_fd = none →
        s.slave_fd = none →
        s.is_active = false ∧
        ∀ (ptf : Option String) (oc : Int → Option String),
          s.terminate ptf oc = (s, .ok true)) ∧
    (∀ (s s' : PTYSession) (ptf : Option String) (oc : Int → Option String),
        s.terminate ptf oc = (s', .ok true) →
        s'.is_active = false ∧
        ∀ (ptf' : Option String) (oc' : Int → Option String),
          s'.terminate ptf' oc' = (s', .ok true)) ∧
    (∀ (s : ProcessSession), s.process = none →
        s.is_active = false ∧
        ∀ (ptf : Option String), s.terminate ptf = (s, .ok true)) ∧
    (∀ (s s' : ProcessSession) (ptf : Option String),
        s.terminate ptf = (s', .ok true) →
        s'.is_active = false ∧
        ∀ (ptf' : Option String), s'.terminate ptf' = (s', .ok true)) ∧
    (∀ (s : SocketSession), s.socket = none →
        s.is_active = false ∧
        ∀ (cf : Option String), s.close cf = (s, .ok true)) ∧
    (∀ (s s' : SocketSession) (cf : Option String),
        s.close cf = (s', .ok true) →
        s'.is_active = false ∧
        ∀ (cf' : Option String), s'.close cf' = (s', .ok true)) ∧
    (∀ (s : SerialSession), s.serial = none →
        s.is_active = false ∧
        ∀ (cf : Option String), s.close cf = (s, .ok true)) ∧
    (∀ (s s' : SerialSession) (cf : Option String),
        s.close cf = (s', .ok true) →
        s'.is_active = false ∧
        ∀ (cf' : Option String), s'.close cf' = (s', .ok true)) := by
  refine ⟨?_, ?_, ?_, ?_, ?_, ?_, ?_, ?_⟩
  · intro s hp hm hs
    refine ⟨by simp [PTYSession.is_active, hp], fun ptf oc => ?_⟩
    exact terminate_of_closed s hp (Or.inl hm) (Or.inl hs) ptf oc
  · intro s s' ptf oc h
    obtain ⟨hp, hm, hs⟩ := terminate_ok_shape s s' ptf oc h
    exact ⟨by simp [PTYSession.is_active, hp],
      fun ptf' oc' => terminate_of_closed s' hp hm hs ptf' oc'⟩
  · intro s hp
    refine ⟨by simp [ProcessSession.is_active, hp], fun ptf => ?_⟩
    unfold ProcessSession.terminate
    rw [hp]
  · intro s s' ptf h
    have hp : s'.process = none := by
      unfold ProcessSession.terminate at h
      cases hsp : s.process with
      | some p =>
        rw [hsp] at h
        cases ptf with
        | some e => simp at h
        | none => simp only [Prod.mk.injEq] at h; rw [← h.1]
      | none =>
        rw [hsp] at h
        simp only [Prod.mk.injEq] at h
        rw [← h.1]
        exact hsp
    refine ⟨by simp [ProcessSession.is_active, hp], fun ptf' => ?_⟩
    unfold ProcessSession.terminate
    rw [hp]
  · intro s hsk
    refine ⟨by simp [SocketSession.is_active, hsk], fun cf => ?_⟩
    unfold SocketSession.close
    rw [hsk]
  · intro s s' cf h
    have hsk : s'.socket = none := by
      unfold SocketSession.close at h
      cases hs : s.socket with
      | some n =>
        rw [hs] at h
        cases cf with
        | some e => simp at h
        | none => simp only [Prod.mk.injEq] at h; rw [← h.1]
      | none =>
        rw [hs] at h
        simp only [Prod.mk.injEq] at h
        rw [← h.1]
        exact hs
    refine ⟨by simp [SocketSession.is_active, hsk], fun cf' => ?_⟩
    unfold SocketSession.close
    rw [hsk]
  · intro s hsr
    refine ⟨by simp [SerialSession.is_active, hsr], fun cf => ?_⟩
    unfold SerialSession.close
    rw [hsr]
  · intro s s' cf h
    have hsr : s'.serial = none := by
      unfold SerialSession.close at h
      cases hs : s.serial with
      | some sp =>
        rw [hs] at h
        cases cf with
        | some e => simp at h
        | none => simp only [Prod.mk.injEq] at h; rw [← h.1]
      | none =>
        rw [hs] at h
        simp only [Prod.mk.injEq] at h
        rw [← h.1]
        exact hs
    refine ⟨by simp [SerialSession.is_active, hsr], fun cf' => ?_⟩
    unfold SerialSession.close
    rw [hsr]

/-- Witness for C5: closing an open channel of each variant succeeds, and
the immediate second close returns unchanged with `is_active` false. -/
theorem C5_witness :
    ((⟨some 3, some 4, some ⟨42, none⟩⟩ : PTYSession).terminate none
        (fun _ => none) = (⟨none, none, none⟩, .ok true) ∧
      (⟨none, none, none⟩ : PTYSession).is_active = false ∧
      (⟨none, none, none⟩ : PTYSession).terminate none (fun _ => none) =
        (⟨none, none, none⟩, .ok true)) ∧
    ((⟨some ⟨9, none⟩⟩ : ProcessSession).terminate none =
        (⟨none⟩, .ok true) ∧
      (⟨none⟩ : ProcessSession).is_active = false ∧
      (⟨none⟩ : ProcessSession).terminate none = (⟨none⟩, .ok true)) ∧
    ((⟨some 5, some "h", some 80⟩ : SocketSession).close none =
        (⟨none, none, none⟩, .ok true) ∧
      (⟨none, none, none⟩ : SocketSession).is_active = false ∧
      (⟨none, none, none⟩ : SocketSession).close none =
        (⟨none, none, none⟩, .ok true)) ∧
    ((⟨some ⟨true⟩, some "/dev/ttyUSB0", some 9600⟩ : SerialSession).close none =
        (⟨none, none, none⟩, .ok true) ∧
      (⟨none, none, none⟩ : SerialSession).is_active = false ∧
      (⟨none, none, none⟩ : SerialSession).close none =
        (⟨none, none, none⟩, .ok true)) :=
  ⟨⟨rfl, (C5_close_idempotent.2.1 ⟨some 3, some 4, some ⟨42, none⟩⟩
      ⟨none, none, none⟩ none (fun _ => none) rfl).1,
    (C5_close_idempotent.2.1 ⟨some 3, some 4, some ⟨42, none⟩⟩
      ⟨none, none, none⟩ none (fun _ => none) rfl).2 none (fun _ => none)⟩,
   ⟨rfl, (C5_close_idempotent.2.2.2.1 ⟨some ⟨9, none⟩⟩ ⟨none⟩ none rfl).1,
    (C5_close_idempotent.2.2.2.1 ⟨some ⟨9, none⟩⟩ ⟨none⟩ none rfl).2 none⟩,
   ⟨rfl, (C5_close_idempotent.2.2.2.2.2.1 ⟨some 5, some "h", some 80⟩
      ⟨none, none, none⟩ none rfl).1,
    (C5_close_idempotent.2.2.2.2.2.1 ⟨some 5, some "h", some 80⟩
      ⟨none, none, none⟩ none rfl).2 none⟩,
   ⟨rfl, (C5_close_idempotent.2.2.2.2.2.2.2 ⟨some ⟨true⟩, some "/dev/ttyUSB0",
      some 9600⟩ ⟨none, none, none⟩ none rfl).1,
    (C5_close_idempotent.2.2.2.2.2.2.2 ⟨some ⟨true⟩, some "/dev/ttyUSB0",
      some 9600⟩ ⟨none, none, none⟩ none rfl).2 none⟩⟩

/-- Under an all-succeeding OS oracle, `PTYSession.terminate` never
raises. -/
theorem terminate_benign (s : PTYSession) :
    s.terminate none (fun _ => none) =
      ((s.terminate none (fun _ => none)).1, .ok true) := by
  obtain ⟨mf, sf, pr⟩ := s
  cases pr <;> rcases mf with _ | m <;> rcases sf with _ | n <;>
    simp only [PTYSession.terminate, PTYSession.terminateFds,
      PTYSession.closeFdStep] <;>
    split_ifs <;> rfl

/-- The PTY block of `cleanup_all` under an all-succeeding oracle: no
exception, the held session (if any) ends terminated, the slot stays
populated, and the other slots are untouched. -/
theorem cleanupPtyStep_benign (m : SessionManager) :
    ∃ m', SessionManager.cleanupPtyStep m {} = (m', none) ∧
      (∀ s', m'.pty_session = some s' → s'.process = none) ∧
      m'.pty_session.isSome = m.pty_session.isSome ∧
      m'.proc_session = m.proc_session ∧
      m'.socket_session = m.socket_session ∧
      m'.serial_session = m.serial_session ∧
      m'.tmux_manager = m.tmux_manager := by
  cases hm : m.pty_session with
  | none =>
    refine ⟨m, ?_, ?_, by rw [hm], rfl, rfl, rfl, rfl⟩
    · simp [SessionManager.cleanupPtyStep, hm]
    · intro s' hs'
      rw [hm] at hs'
      cases hs'
  | some s =>
    have hben := terminate_benign s
    have hsh := terminate_ok_shape s (s.terminate none (fun _ => none)).1
      none (fun _ => none) hben
    refine ⟨{ m with pty_session := some (s.terminate none (fun _ => none)).1 }, ?_, ?_, rfl, rfl, rfl, rfl, rfl⟩
    · simp only [SessionManager.cleanupPtyStep, hm]
      rw [hben]
    · intro s' hs'
      simp only [Option.some.injEq] at hs'
      rw [← hs']
      exact hsh.1

/-- The process block of `cleanup_all` under a no-failure oracle. -/
theorem cleanupProcStep_benign (m : SessionManager) :
    ∃ m', SessionManager.cleanupProcStep m {} = (m', none) ∧
      (∀ s', m'.proc_session = some s' → s'.process = none) ∧
      m'.proc_session.isSome = m.proc_session.isSome ∧
      m'.pty_session = m.pty_session ∧
      m'.socket_session = m.socket_session ∧
      m'.serial_session = m.serial_session ∧
      m'.tmux_manager = m.tmux_manager := by
  cases hm : m.proc_session with
  | none =>
    refine ⟨m, ?_, ?_, by rw [hm], rfl, rfl, rfl, rfl⟩
    · simp [SessionManager.cleanupProcStep, hm]
    · intro s' hs'
      rw [hm] at hs'
      cases hs'
  | some s =>
    cases hp : s.process with
    | some p =>
      refine ⟨{ m with proc_session := some ⟨none⟩ }, ?_, ?_, rfl, rfl, rfl, rfl, rfl⟩
      · simp [SessionManager.cleanupProcStep, ProcessSession.terminate, hm, hp]
      · intro s' hs'
        simp only [Option.some.injEq] at hs'
        rw [← hs']
    | none =>
      refine ⟨{ m with proc_session := some s }, ?_, ?_, rfl, rfl, rfl, rfl, rfl⟩
      · simp [SessionManager.cleanupProcStep, ProcessSession.terminate, hm, hp]
      · intro s' hs'
        simp only [Option.some.injEq] at hs'
        rw [← hs']
        exact hp

/-- The socket block of `cleanup_all` under a no-failure oracle. -/
theorem cleanupSocketStep_benign (m : SessionManager) :
    ∃ m', SessionManager.cleanupSocketStep m {} = (m', none) ∧
      (∀ s', m'.socket_session = some s' → s'.socket = none) ∧
      m'.socket_session.isSome = m.socket_session.isSome ∧
      m'.pty_session = m.pty_session ∧
      m'.proc_session = m.proc_session ∧
      m'.serial_session = m.serial_session ∧
      m'.tmux_manager = m.tmux_manager := by
  cases hm : m.socket_session with
  | none =>
    refine ⟨m, ?_, ?_, by rw [hm], rfl, rfl, rfl, rfl⟩
    · simp [SessionManager.cleanupSocketStep, hm]
    · intro s' hs'
      rw [hm] at hs'
      cases hs'
  | some s =>
    cases hp : s.socket with
    | some n =>
      refine ⟨{ m with socket_session := some ⟨none, none, none⟩ }, ?_, ?_, rfl, rfl, rfl, rfl, rfl⟩
      · simp [SessionManager.cleanupSocketStep, SocketSession.close, hm, hp]
      · intro s' hs'
        simp only [Option.some.injEq] at hs'
        rw [← hs']
    | none =>
      refine ⟨{ m with socket_session := some s }, ?_, ?_, rfl, rfl, rfl, rfl, rfl⟩
      · simp [SessionManager.cleanupSocketStep, SocketSession.close, hm, hp]
      · intro s' hs'
        simp only [Option.some.injEq] at hs'
        rw [← hs']
        exact hp

/-- The serial block of `cleanup_all` under a no-failure oracle. -/
theorem cleanupSerialStep_benign (m : SessionManager) :
    ∃ m', SessionManager.cleanupSerialStep m {} = (m', none) ∧
      (∀ s', m'.serial_session = some s' → s'.serial = none) ∧
      m'.serial_session.isSome = m.serial_session.isSome ∧
      m'.pty_session = m.pty_session ∧
      m'.proc_session = m.proc_session ∧
      m'.socket_session = m.socket_session ∧
      m'.tmux_manager = m.tmux_manager := by
  cases hm : m.serial_session with
  | none =>
    refine ⟨m, ?_, ?_, by rw [hm], rfl, rfl, rfl, rfl⟩
    · simp [SessionManager.cleanupSerialStep, hm]
    · intro s' hs'
      rw [hm] at hs'
      cases hs'
  | some s =>
    cases hp : s.serial with
    | some sp =>
      refine ⟨{ m with serial_session := some ⟨none, none, none⟩ }, ?_, ?_, rfl, rfl, rfl, rfl, rfl⟩
      · simp [SessionManager.cleanupSerialStep, SerialSession.close, hm, hp]
      · intro s' hs'
        simp only [Option.some.injEq] at hs'
        rw [← hs']
    | none =>
      refine ⟨{ m with serial_session := some s }, ?_, ?_, rfl, rfl, rfl, rfl, rfl⟩
      · simp [SessionManager.cleanupSerialStep, SerialSession.close, hm, hp]
      · intro s' hs'
        simp only [Option.some.injEq] at hs'
        rw [← hs']
        exact hp

/-- Full behaviour of `cleanup_all` when every OS call succeeds: no
exception, every held channel ends closed (tmux cache cleared), and every
slot keeps exactly its prior occupancy — no slot is set to `None`. -/
theorem cleanup_all_benign_spec (m : SessionManager) :
    (m.cleanup_all {}).2 = .ok () ∧
    (∀ s, (m.cleanup_all {}).1.pty_session = some s → s.process = none) ∧
    (∀ s, (m.cleanup_all {}).1.proc_session = some s → s.process = none) ∧
    (∀ s, (m.cleanup_all {}).1.socket_session = some s → s.socket = none) ∧
    (∀ s, (m.cleanup_all {}).1.serial_session = some s → s.serial = none) ∧
    (∀ t, (m.cleanup_all {}).1.tmux_manager = some t → t.sessions = []) ∧
    (m.cleanup_all {}).1.pty_session.isSome = m.pty_session.isSome ∧
    (m.cleanup_all {}).1.proc_session.isSome = m.proc_session.isSome ∧
    (m.cleanup_all {}).1.socket_session.isSome = m.socket_session.isSome ∧
    (m.cleanup_all {}).1.serial_session.isSome = m.serial_session.isSome := by
  obtain ⟨m1, e1, p1, i1, q1, r1, t1, u1⟩ := cleanupPtyStep_benign m
  obtain ⟨m2, e2, p2, i2, q2, r2, t2, u2⟩ := cleanupProcStep_benign m1
  obtain ⟨m3, e3, p3, i3, q3, r3, t3, u3⟩ := cleanupSocketStep_benign m2
  obtain ⟨m4, e4, p4, i4, q4, r4, t4, u4⟩ := cleanupSerialStep_benign m3
  cases ht : m4.tmux_manager with
  | none =>
    have hc : m.cleanup_all {} = (m4, .ok ()) := by
      simp only [SessionManager.cleanup_all, e1, e2, e3, e4, ht]
    rw [hc]
    refine ⟨rfl, ?_, ?_, ?_, ?_, ?_, ?_, ?_, ?_, ?_⟩
    · intro s hs
      rw [q4, q3, q2] at hs
      exact p1 s hs
    · intro s hs
      rw [r4, r3] at hs
      exact p2 s hs
    · intro s hs
      rw [t4] at hs
      exact p3 s hs
    · intro s hs
      exact p4 s hs
    · intro t htm
      rw [ht] at htm
      cases htm
    · rw [show (m4, Except.ok ()).1.pty_session = m4.pty_session from rfl,
        q4, q3, q2, i1]
    · rw [show (m4, Except.ok ()).1.proc_session = m4.proc_session from rfl,
        r4, r3, i2, q1]
    · rw [show (m4, Except.ok ()).1.socket_session = m4.socket_session from rfl,
        t4, i3, r2, r1]
    · rw [show (m4, Except.ok ()).1.serial_session = m4.serial_session from rfl,
        i4, t3, t2, t1]
  | some t0 =>
    have hc : m.cleanup_all {} =
        ({ m4 with tmux_manager := some ⟨[]⟩ }, .ok ()) := by
      simp only [SessionManager.cleanup_all, e1, e2, e3, e4, ht,
        TmuxSessionManager.cleanup_all]
    rw [hc]
    refine ⟨rfl, ?_, ?_, ?_, ?_, ?_, ?_, ?_, ?_, ?_⟩
    · intro s hs
      dsimp only at hs
      rw [q4, q3, q2] at hs
      exact p1 s hs
    · intro s hs
      dsimp only at hs
      rw [r4, r3] at hs
      exact p2 s hs
    · intro s hs
      dsimp only at hs
      rw [t4] at hs
      exact p3 s hs
    · intro s hs
      dsimp only at hs
      exact p4 s hs
    · intro t htm
      dsimp only at htm
      simp only [Option.some.injEq] at htm
      rw [← htm]
    · dsimp only
      rw [q4, q3, q2, i1]
    · dsimp only
      rw [r4, r3, i2, q1]
    · dsimp only
      rw [t4, i3, r2, r1]
    · dsimp only
      rw [i4, t3, t2, t1]

/-- C4 (amended): `cleanup_all` invokes the terminate/close operation on
the held singleton channels and the tmux manager in source order (PTY,
process, socket, serial, tmux); when every individual cleanup succeeds it
raises no exception and every held channel ends closed; but it has no
per-channel exception handling, so when an earlier channel's cleanup
raises, the exception propagates out of `cleanup_all` and the remaining
channels' cleanups are not attempted (their slots are untouched). -/
theorem C4_cleanup_all_ordered_and_aborts_on_failure :
    (∀ m : SessionManager,
        (m.cleanup_all {}).2 = .ok () ∧
        (∀ s, (m.cleanup_all {}).1.pty_session = some s → s.process = none) ∧
        (∀ s, (m.cleanup_all {}).1.proc_session = some s → s.process = none) ∧
        (∀ s, (m.cleanup_all {}).1.socket_session = some s → s.socket = none) ∧
        (∀ s, (m.cleanup_all {}).1.serial_session = some s → s.serial = none) ∧
        (∀ t, (m.cleanup_all {}).1.tmux_manager = some t → t.sessions = [])) ∧
    (∀ (m : SessionManager) (s : PTYSession) (e : String) (f : CleanupFailures),
        m.pty_session = some s →
        (s.terminate f.ptyTermFail f.ptyOsClose).2 = .error e →
        (m.cleanup_all f).2 = .error e ∧
        (m.cleanup_all f).1.proc_session = m.proc_session ∧
        (m.cleanup_all f).1.socket_session = m.socket_session ∧
        (m.cleanup_all f).1.serial_session = m.serial_session ∧
        (m.cleanup_all f).1.tmux_manager = m.tmux_manager) := by
  constructor
  · intro m
    obtain ⟨h1, h2, h3, h4, h5, h6, _⟩ := cleanup_all_benign_spec m
    exact ⟨h1, h2, h3, h4, h5, h6⟩
  · intro m s e f hm hterm
    have hpair : s.terminate f.ptyTermFail f.ptyOsClose =
        ((s.terminate f.ptyTermFail f.ptyOsClose).1, .error e) := by
      rw [← hterm]
    have hstep : SessionManager.cleanupPtyStep m f = ({ m with pty_session := some (s.terminate f.ptyTermFail f.ptyOsClose).1 }, some e) := by
      simp only [SessionManager.cleanupPtyStep, hm]
      rw [hpair]
    have hc : m.cleanup_all f = ({ m with pty_session := some (s.terminate f.ptyTermFail f.ptyOsClose).1 }, .error e) := by
      simp only [SessionManager.cleanup_all, hstep]
    rw [hc]
    exact ⟨rfl, rfl, rfl, rfl, rfl⟩

/-- The manager used for the C4 evaluation: an open PTY channel (live
child, both descriptors held) and an open socket channel. -/
def c4mgr : SessionManager :=
  { pty_session := some ⟨some 3, some 4, some ⟨42, none⟩⟩
    socket_session := some ⟨some 5, some "host", some 80⟩ }

/-- The C4 failure oracle: `os.close(3)` (the PTY master) raises EIO;
every other OS call succeeds. -/
def c4fail : CleanupFailures :=
  { ptyOsClose := fun n =>
      if n == 3 then some "OSError: [Errno 5] Input/output error" else none }

/-- C4 counterexample: with the PTY master's `os.close` raising,
`cleanup_all` propagates the exception and the still-open socket channel
is never attempted — refuting the claim that one channel's cleanup failure
does not prevent the remaining cleanups and that `cleanup_all` raises no
exception. -/
theorem C4_counterexample :
    (c4mgr.cleanup_all c4fail).2 =
      .error "OSError: [Errno 5] Input/output error" ∧
    (c4mgr.cleanup_all c4fail).1.socket_session =
      some ⟨some 5, some "host", some 80⟩ ∧
    SocketSession.is_active ⟨some 5, some "host", some 80⟩ = true :=
  ⟨rfl, rfl, rfl⟩

/-- Witness for C4 (amended) at `c4mgr`: the benign run succeeds and the
EIO run aborts before the socket cleanup. -/
theorem C4_witness :
    ((c4mgr.cleanup_all {}).2 = .ok ()) ∧
    c4mgr.pty_session = some ⟨some 3, some 4, some ⟨42, none⟩⟩ ∧
    ((⟨some 3, some 4, some ⟨42, none⟩⟩ : PTYSession).terminate
        c4fail.ptyTermFail c4fail.ptyOsClose).2 =
      .error "OSError: [Errno 5] Input/output error" ∧
    (c4mgr.cleanup_all c4fail).2 =
      .error "OSError: [Errno 5] Input/output error" ∧
    (c4mgr.cleanup_all c4fail).1.socket_session = c4mgr.socket_session :=
  ⟨(C4_cleanup_all_ordered_and_aborts_on_failure.1 c4mgr).1, rfl, rfl,
   (C4_cleanup_all_ordered_and_aborts_on_failure.2 c4mgr
      ⟨some 3, some 4, some ⟨42, none⟩⟩
      "OSError: [Errno 5] Input/output error" c4fail rfl rfl).1,
   (C4_cleanup_all_ordered_and_aborts_on_failure.2 c4mgr
      ⟨some 3, some 4, some ⟨42, none⟩⟩
      "OSError: [Errno 5] Input/output error" c4fail rfl rfl).2.2.1⟩

/-- C8 (amended): the slot is cleared when a channel is closed through its
dedicated close tool — the PTY disconnect tool terminates the session and
sets the pty slot to `None` (after which the get-or-create accessor
constructs a fresh closed channel), and the kill-proc and serial-close
tools do the same for their slots — but `SessionManager.cleanup_all`
closes the held channels without clearing any slot, so after it each slot
still references the closed channel object. -/
theorem C8_close_tools_clear_slot_cleanup_all_does_not :
    (∀ (m : SessionManager) (s : PTYSession), m.pty_session = some s →
        s.is_active = true →
        DisconnectTool.execute (some m) none (fun _ => none) =
          (some { m with pty_session := none },
           { success := true, content := "PTY session terminated" }) ∧
        SessionManager.get_pty_session { m with pty_session := none } =
          ({ m with pty_session := some {} }, {})) ∧
    (∀ (m : SessionManager) (s : ProcessSession), m.proc_session = some s →
        s.is_active = true →
        KillProcTool.execute (some m) none =
          (some { m with proc_session := none },
           { success := true, content := "Process terminated" })) ∧
    (∀ (m : SessionManager) (s : SerialSession), m.serial_session = some s →
        s.is_active = true →
        SerialCloseTool.execute (some m) none =
          (some { m with serial_session := none },
           { success := true,
             content := "Serial connection closed: " ++ formatOptStr s.device })) ∧
    (∀ m : SessionManager,
        (m.cleanup_all {}).1.pty_session.isSome = m.pty_session.isSome ∧
        (m.cleanup_all {}).1.proc_session.isSome = m.proc_session.isSome ∧
        (m.cleanup_all {}).1.socket_session.isSome = m.socket_session.isSome ∧
        (m.cleanup_all {}).1.serial_session.isSome = m.serial_session.isSome) := by
  refine ⟨?_, ?_, ?_, ?_⟩
  · intro m s hm hact
    have hg : m.get_pty_session = (m, s) := by
      unfold SessionManager.get_pty_session
      rw [hm]
    constructor
    · simp only [DisconnectTool.execute, hg]
      rw [terminate_benign s]
      simp [hact]
    · unfold SessionManager.get_pty_session
      rfl
  · intro m s hm hact
    have hg : m.get_proc_session = (m, s) := by
      unfold SessionManager.get_proc_session
      rw [hm]
    obtain ⟨p, hp⟩ : ∃ p, s.process = some p := by
      cases hsp : s.process with
      | some p => exact ⟨p, rfl⟩
      | none => rw [ProcessSession.is_active, hsp] at hact; cases hact
    simp only [KillProcTool.execute, hg]
    simp [hact, ProcessSession.terminate, hp]
  · intro m s hm hact
    have hg : m.get_serial_session = (m, s) := by
      unfold SessionManager.get_serial_session
      rw [hm]
    obtain ⟨sp, hp⟩ : ∃ sp, s.serial = some sp := by
      cases hsp : s.serial with
      | some sp => exact ⟨sp, rfl⟩
      | none => rw [SerialSession.is_active, hsp] at hact; cases hact
    simp only [SerialCloseTool.execute, hg]
    simp [hact, SerialSession.close, hp]
  · intro m
    obtain ⟨_, _, _, _, _, _, h7, h8, h9, h10⟩ := cleanup_all_benign_spec m
    exact ⟨h7, h8, h9, h10⟩

/-- The manager used for the C8 evaluation: one open PTY channel. -/
def c8mgr : SessionManager :=
  { pty_session := some ⟨some 3, some 4, some ⟨42, none⟩⟩ }

/-- C8 counterexample: `cleanup_all` closes the held PTY channel through
its `terminate` call, yet the owning slot still holds the closed session
object afterwards instead of being cleared to `None` — refuting the claim
that after a channel is closed by its terminate/close call the owning
slot is cleared. -/
theorem C8_counterexample :
    (c8mgr.cleanup_all {}).2 = .ok () ∧
    (c8mgr.cleanup_all {}).1.pty_session = some ⟨none, none, none⟩ ∧
    (c8mgr.cleanup_all {}).1.pty_session ≠ none :=
  ⟨rfl, rfl, by
    intro h
    rw [show (c8mgr.cleanup_all {}).1.pty_session = some ⟨none, none, none⟩
      from rfl] at h
    cases h⟩

/-- Witness for C8 (amended) on concrete managers with one active channel
of each kind. -/
theorem C8_witness :
    (DisconnectTool.execute (some c8mgr) none (fun _ => none) =
      (some { c8mgr with pty_session := none },
       { success := true, content := "PTY session terminated" }) ∧
     SessionManager.get_pty_session { c8mgr with pty_session := none } =
      ({ c8mgr with pty_session := some {} }, {})) ∧
    KillProcTool.execute
        (some { proc_session := some ⟨some ⟨9, none⟩⟩ }) none =
      (some { proc_session := none },
       { success := true, content := "Process terminated" }) ∧
    SerialCloseTool.execute
        (some { serial_session := some ⟨some ⟨true⟩, some "/dev/ttyUSB0", some 9600⟩ }) none =
      (some { serial_session := none },
       { success := true,
         content := "Serial connection closed: /dev/ttyUSB0" }) ∧
    (c8mgr.cleanup_all {}).1.pty_session.isSome = c8mgr.pty_session.isSome :=
  ⟨C8_close_tools_clear_slot_cleanup_all_does_not.1 c8mgr
     ⟨some 3, some 4, some ⟨42, none⟩⟩ rfl rfl,
   C8_close_tools_clear_slot_cleanup_all_does_not.2.1
     { proc_session := some ⟨some ⟨9, none⟩⟩ } ⟨some ⟨9, none⟩⟩ rfl rfl,
   C8_close_tools_clear_slot_cleanup_all_does_not.2.2.1
     { serial_session := some ⟨some ⟨true⟩, some "/dev/ttyUSB0", some 9600⟩ }
     ⟨some ⟨true⟩, some "/dev/ttyUSB0", some 9600⟩ rfl rfl,
   (C8_close_tools_clear_slot_cleanup_all_does_not.2.2.2 c8mgr).1⟩

end PtyMcp
